import Mathlib

/-!
Shallow embedding of `src/eda_template.py`, a small exploratory-data-analysis
pipeline over FRED macroeconomic time series.

The pandas data model is embedded as follows:
* a `DataFrame` is a date-indexed table: a list of row dates together with a
  list of labelled columns, each column a list of cells aligned with the index;
* a missing observation (pandas `NaN`, the "no value" marker) is `Option.none`,
  numeric values are exact rationals `ℚ`;
* the external data provider (`pandas_datareader.data.DataReader`) is a
  parameter: a function from a FRED series identifier to either an error or
  the retrieved series, a list of dated observations;
* fallible pandas operations return `Except String _`.
-/

/-- A calendar date.  Ordering and grouping go through `Date.key` and
`Date.monthIdx`; no validity constraint is imposed. -/
structure Date where
  year : Nat
  month : Nat
  day : Nat
deriving DecidableEq

/-- Sort key for dates: lexicographic on (year, month, day) whenever
`month < 16` and `day < 32`, which every calendar date satisfies. -/
def Date.key (d : Date) : Nat := (d.year * 16 + d.month) * 32 + d.day

/-- The calendar month a date falls in, as a single number (used by
`resample("M")` grouping): months of the same (year, month) pair coincide. -/
def Date.monthIdx (d : Date) : Nat := 12 * d.year + (d.month - 1)

/-- A date-indexed table: the pandas `DataFrame` produced by the fetcher.
Each column is a list of optional rationals aligned with `index`;
`none` is the "no value" (NaN) marker. -/
structure DataFrame where
  index : List Date
  cols : List (String × List (Option ℚ))
deriving DecidableEq

/-- Equality of fallible results is decidable when both payloads are. -/
instance {ε α : Type} [DecidableEq ε] [DecidableEq α] : DecidableEq (Except ε α) :=
  fun a b =>
    match a, b with
    | .ok x, .ok y => if h : x = y then isTrue (by rw [h]) else isFalse (by simp [h])
    | .error x, .error y => if h : x = y then isTrue (by rw [h]) else isFalse (by simp [h])
    | .ok _, .error _ => isFalse (by simp)
    | .error _, .ok _ => isFalse (by simp)

/-- Association-list lookup by string, first match wins (pandas column
selection `df[label]` on the column axis). -/
def lookupStr {α : Type} (label : String) : List (String × α) → Option α
  | [] => none
  | p :: rest => if p.1 = label then some p.2 else lookupStr label rest

/-- `df[label]`: the column of `df` named `label`, if present. -/
def DataFrame.getCol (df : DataFrame) (label : String) : Option (List (Option ℚ)) :=
  lookupStr label df.cols

/-- Value of a retrieved series at date `d`, if the series observed that date
(index lookup in a single-column frame). -/
def findVal (d : Date) : List (Date × ℚ) → Option ℚ
  | [] => none
  | o :: rest => if o.1 = d then some o.2 else findVal d rest

/-- The index `pd.concat(frames, axis=1)` aligns on: the union of the frames'
date indexes, deduplicated and sorted chronologically. -/
def sortedUnion (ls : List (List Date)) : List Date :=
  (ls.flatten.dedup).mergeSort (fun a b => decide (a.key ≤ b.key))

/-- `pd.concat(frames, axis=1)`: outer join of single-column frames on the
date index.  Raises `ValueError: No objects to concatenate` on an empty list;
otherwise every column is re-indexed on the union of dates, a date absent
from a frame holding the "no value" marker in that frame's column. -/
def concatOuter (frames : List (String × List (Date × ℚ))) : Except String DataFrame :=
  if frames.isEmpty then .error "No objects to concatenate"
  else
    let idx := sortedUnion (frames.map (fun fr => fr.2.map Prod.fst))
    .ok ⟨idx, frames.map (fun fr => (fr.1, idx.map (fun d => findVal d fr.2)))⟩

/-- The fetch loop of `fetch_fred_series`: for each `(label, fred_id)` in
order, retrieve the series via the data reader and rename its single value
column from `fred_id` to `label` (modelled by pairing the data with `label`).
The first retrieval error aborts the loop and propagates. -/
def fetchFrames (dataReader : String → Except String (List (Date × ℚ))) :
    List (String × String) → Except String (List (String × List (Date × ℚ)))
  | [] => .ok []
  | p :: rest => do
    let ts ← dataReader p.2
    let frames ← fetchFrames dataReader rest
    pure ((p.1, ts) :: frames)

/-- `fetch_fred_series`: download every series of the mapping, then
concatenate the single-column frames into one date-indexed table with
columns in input order. -/
def fetch_fred_series (dataReader : String → Except String (List (Date × ℚ)))
    (series : List (String × String)) : Except String DataFrame := do
  let frames ← fetchFrames dataReader series
  concatOuter frames

/-! ## Summarizer (`summarize_timeseries`) -/

/-- `Series.dropna`: the present values of a column, in order. -/
def dropna (col : List (Option ℚ)) : List ℚ := col.filterMap id

/-- Mean of a list of values; `NaN` (here `none`) when the list is empty. -/
def qmean (l : List ℚ) : Option ℚ :=
  if l.isEmpty then none else some (l.sum / l.length)

/-- Minimum of a list of values, `NaN` when empty. -/
def qmin : List ℚ → Option ℚ
  | [] => none
  | x :: rest => some (rest.foldl min x)

/-- Maximum of a list of values, `NaN` when empty. -/
def qmax : List ℚ → Option ℚ
  | [] => none
  | x :: rest => some (rest.foldl max x)

/-- Sample standard deviation (`ddof = 1`, pandas default): `NaN` for fewer
than two values. -/
noncomputable def stdev (l : List ℚ) : Option ℝ :=
  if l.length ≤ 1 then none
  else
    let m : ℚ := l.sum / l.length
    some (Real.sqrt ((((l.map (fun x => (x - m) ^ 2)).sum / (l.length - 1) : ℚ) : ℝ)))

/-- Quantile with linear interpolation on the sorted values (pandas default
for `describe`'s 25%/50%/75% rows); `NaN` when empty. -/
def quantile (l : List ℚ) (p : ℚ) : Option ℚ :=
  if l.isEmpty then none
  else
    let vs := l.mergeSort (fun a b => decide (a ≤ b))
    let pos : ℚ := p * ((vs.length : ℚ) - 1)
    let lo : Nat := (⌊pos⌋).toNat
    let hi : Nat := (⌈pos⌉).toNat
    some (vs.getD lo 0 + (pos - lo) * (vs.getD hi 0 - vs.getD lo 0))

/-- A cell of the summary table: descriptive statistics are rationals, the
standard deviation is a real, the first/last valid dates are dates; each
carries `none` as the `NaN` marker. -/
inductive Cell where
  | num (q : Option ℚ)
  | real (r : Option ℝ)
  | date (d : Option Date)

/-- Numeric payload of a summary cell. -/
def cellNum : Cell → Option ℚ
  | .num q => q
  | _ => none

/-- Date payload of a summary cell. -/
def cellDate : Cell → Option Date
  | .date d => d
  | _ => none

/-- The summary table `df.describe().T` (and its later mutations): rows keyed
by the original column labels, columns keyed by statistic name. -/
structure SummaryFrame where
  index : List String
  cols : List (String × List Cell)

/-- `summary[name] = vals`: pandas column assignment replaces an existing
column of that name in place, otherwise appends a new column at the end. -/
def SummaryFrame.setColumn (s : SummaryFrame) (name : String) (vals : List Cell) :
    SummaryFrame :=
  { s with
    cols :=
      if s.cols.any (fun c => c.1 == name) then
        s.cols.map (fun c => if c.1 == name then (name, vals) else c)
      else s.cols ++ [(name, vals)] }

/-- `df.describe().T`: one row per column of `df`, columns `count`, `mean`,
`std`, `min`, `25%`, `50%`, `75%`, `max`, each statistic computed over the
column's present values. -/
noncomputable def describeT (df : DataFrame) : SummaryFrame :=
  { index := df.cols.map Prod.fst
    cols :=
      [("count", df.cols.map (fun c => Cell.num (some ((dropna c.2).length : ℚ)))),
       ("mean", df.cols.map (fun c => Cell.num (qmean (dropna c.2)))),
       ("std", df.cols.map (fun c => Cell.real (stdev (dropna c.2)))),
       ("min", df.cols.map (fun c => Cell.num (qmin (dropna c.2)))),
       ("25%", df.cols.map (fun c => Cell.num (quantile (dropna c.2) (1/4)))),
       ("50%", df.cols.map (fun c => Cell.num (quantile (dropna c.2) (1/2)))),
       ("75%", df.cols.map (fun c => Cell.num (quantile (dropna c.2) (3/4)))),
       ("max", df.cols.map (fun c => Cell.num (qmax (dropna c.2))))] }

/-- `df.isna().mean() * 100` for one column: the mean of the missing-value
indicators times 100 (`NaN` when the column has no rows). -/
def missingPct (col : List (Option ℚ)) : Option ℚ :=
  if col.isEmpty then none
  else some ((col.map (fun v => if v.isNone then (1 : ℚ) else 0)).sum / col.length * 100)

/-- `col.first_valid_index()`: the first index date whose cell is present. -/
def firstValidIndex (index : List Date) (col : List (Option ℚ)) : Option Date :=
  ((index.zip col).find? (fun p => p.2.isSome)).map Prod.fst

/-- `col.last_valid_index()`: the last index date whose cell is present. -/
def lastValidIndex (index : List Date) (col : List (Option ℚ)) : Option Date :=
  ((index.zip col).reverse.find? (fun p => p.2.isSome)).map Prod.fst

/-- `summarize_timeseries`: `df.describe().T`, then three derived columns
assigned in order: `missing_pct`, `start_date`, `end_date`. -/
noncomputable def summarize_timeseries (df : DataFrame) : SummaryFrame :=
  let summary := describeT df
  let summary := summary.setColumn "missing_pct"
    (df.cols.map (fun c => Cell.num (missingPct c.2)))
  let summary := summary.setColumn "start_date"
    (df.cols.map (fun c => Cell.date (firstValidIndex df.index c.2)))
  let summary := summary.setColumn "end_date"
    (df.cols.map (fun c => Cell.date (lastValidIndex df.index c.2)))
  summary

/-- `summary.loc[rowLabel, statName]`: the cell of the summary table at the
first row labelled `rowLabel` and the column named `statName`. -/
def summaryCell (s : SummaryFrame) (statName rowLabel : String) : Option Cell :=
  match s.index.findIdx? (fun l => l == rowLabel), lookupStr statName s.cols with
  | some i, some vs => vs[i]?
  | _, _ => none

/-! ## Time-series plot (`plot_time_series`) -/

/-- The rendered line chart: one line per column of the frame, drawn against
the shared date index. -/
structure TSFig where
  index : List Date
  lines : List (String × List (Option ℚ))
  title : String
  xlabel : String
  ylabel : String
deriving DecidableEq

/-- `plot_time_series`: `df.plot` draws every column as one line; fixed axis
labels and a legend keyed by column label. -/
def plot_time_series (df : DataFrame) (title : String) : TSFig :=
  { index := df.index, lines := df.cols, title := title,
    xlabel := "Date", ylabel := "Value" }

/-! ## Monthly resampling and correlation (`plot_correlation_heatmap`) -/

/-- Gregorian leap year. -/
def isLeap (y : Nat) : Bool := y % 4 == 0 && (y % 100 != 0 || y % 400 == 0)

/-- Number of days of month `m` of year `y`. -/
def lastDay (y m : Nat) : Nat :=
  if m = 2 then (if isLeap y then 29 else 28)
  else if m = 4 ∨ m = 6 ∨ m = 9 ∨ m = 11 then 30
  else 31

/-- The month-end date labelling month number `k` in a `resample("M")`
result. -/
def monthEnd (k : Nat) : Date :=
  ⟨k / 12, k % 12 + 1, lastDay (k / 12) (k % 12 + 1)⟩

/-- The present observations of a column that fall in calendar month `k`. -/
def monthVals (index : List Date) (col : List (Option ℚ)) (k : Nat) : List ℚ :=
  (index.zip col).filterMap (fun p => if p.1.monthIdx = k then p.2 else none)

/-- The `mean()` aggregate of one column for month `k`: the arithmetic mean
of the month's present observations, `NaN` when there are none. -/
def colMonthVal (index : List Date) (col : List (Option ℚ)) (k : Nat) : Option ℚ :=
  let vs := monthVals index col k
  if vs.isEmpty then none else some (vs.sum / vs.length)

/-- `df.resample("M").mean()`: one row per calendar month from the first to
the last month of the index (empty months hold `NaN`), each row labelled by
its month-end date, each cell the mean of that month's present
observations. -/
def resampleMonthly (df : DataFrame) : DataFrame :=
  match df.index.map Date.monthIdx with
  | [] => ⟨[], df.cols.map (fun c => (c.1, []))⟩
  | k0 :: ks =>
    let lo := ks.foldl min k0
    let hi := ks.foldl max k0
    let months := (List.range (hi + 1 - lo)).map (· + lo)
    ⟨months.map monthEnd,
     df.cols.map (fun c => (c.1, months.map (fun k => colMonthVal df.index c.2 k)))⟩

/-- The pairwise-complete observations of two columns: rows where both are
present (pandas `corr` drops incomplete pairs pairwise). -/
def pairObs (xs ys : List (Option ℚ)) : List (ℚ × ℚ) :=
  (xs.zip ys).filterMap (fun p =>
    match p with
    | (some a, some b) => some (a, b)
    | _ => none)

/-- Sum of squared deviations of the first components from their mean. -/
def devSumXX (ps : List (ℚ × ℚ)) : ℚ :=
  (ps.map (fun p => (p.1 - (ps.map Prod.fst).sum / ps.length) ^ 2)).sum

/-- Sum of squared deviations of the second components from their mean. -/
def devSumYY (ps : List (ℚ × ℚ)) : ℚ :=
  (ps.map (fun p => (p.2 - (ps.map Prod.snd).sum / ps.length) ^ 2)).sum

/-- Sum of products of deviations of the two components from their means. -/
def devSumXY (ps : List (ℚ × ℚ)) : ℚ :=
  (ps.map (fun p =>
    (p.1 - (ps.map Prod.fst).sum / ps.length) *
    (p.2 - (ps.map Prod.snd).sum / ps.length))).sum

/-- One entry of the Pearson correlation matrix over the pairwise-complete
observations; `NaN` when either column has zero squared deviation there
(constant or near-empty column: a 0/0 in the float computation). -/
noncomputable def corrEntry (xs ys : List (Option ℚ)) : Option ℝ :=
  if devSumXX (pairObs xs ys) = 0 ∨ devSumYY (pairObs xs ys) = 0 then none
  else some ((devSumXY (pairObs xs ys) : ℝ) /
    (Real.sqrt (devSumXX (pairObs xs ys)) * Real.sqrt (devSumYY (pairObs xs ys))))

/-- `df.corr()`: the square matrix of pairwise Pearson correlations, rows and
columns keyed by the frame's column labels in order. -/
noncomputable def corrMatrix (df : DataFrame) : List (String × List (Option ℝ)) :=
  df.cols.map (fun ci => (ci.1, df.cols.map (fun cj => corrEntry ci.2 cj.2)))

/-- Entry `(i, j)` of a correlation matrix (row `i`, column `j`). -/
def corrAt (m : List (String × List (Option ℝ))) (i j : Nat) : Option (Option ℝ) :=
  match m[i]? with
  | some row => row.2[j]?
  | none => none

/-- The rendered heatmap: the correlation matrix of the monthly-resampled
frame, with numeric annotations. -/
structure CorrFig where
  corr : List (String × List (Option ℝ))
  title : String

/-- `plot_correlation_heatmap`: resample to monthly frequency, correlate,
render as an annotated heatmap. -/
noncomputable def plot_correlation_heatmap (df : DataFrame) (title : String) : CorrFig :=
  { corr := corrMatrix (resampleMonthly df), title := title }

/-! ## Distribution plot (`plot_distribution`) -/

/-- One histogram-plus-density subplot: its title and the plotted values
(the selected column with its "no value" entries dropped). -/
structure Subplot where
  title : String
  data : List ℚ
deriving DecidableEq

/-- The rendered distribution figure: its subplots, stacked vertically. -/
structure DistFig where
  subplots : List Subplot
deriving DecidableEq

/-- What `plt.subplots(n, 1)` returns: a single axes object when `n = 1`,
otherwise an array of `n` axes. -/
inductive AxesResult where
  | one
  | many (n : Nat)

/-- `plt.subplots(len(cols), 1)`: matplotlib raises a `ValueError` for zero
rows (`GridSpec` requires a positive number of rows), returns a single axes
object for one row, and an array of axes otherwise. -/
def pltSubplots (n : Nat) : Except String AxesResult :=
  if n = 0 then .error "ValueError: Number of rows must be a positive integer"
  else if n = 1 then .ok .one else .ok (.many n)

/-- The axes iterated over by the rendering loop: the single-axes result is
wrapped into a one-element list (`if len(cols) == 1: axes = [axes]`), an
array is iterated as is. -/
def axesList : AxesResult → List Unit
  | .one => [()]
  | .many n => List.replicate n ()

/-- The body of `for ax, col in zip(axes, cols)`: render
`sns.histplot(df[col].dropna(), ...)` on each axes in turn.  An absent
column raises a `KeyError` at `df[col]`. -/
def renderSubplots (df : DataFrame) : List (Unit × String) → Except String (List Subplot)
  | [] => .ok []
  | p :: rest =>
    match df.getCol p.2 with
    | none => .error ("KeyError: " ++ p.2)
    | some col =>
      match renderSubplots df rest with
      | .error e => .error e
      | .ok ss => .ok (⟨"Distribution of " ++ p.2, dropna col⟩ :: ss)

/-- `plot_distribution`: select the requested columns (all columns when no
subset is given), create one vertically stacked subplot per selected column,
and render each column's present values on its subplot. -/
def plot_distribution (df : DataFrame) (columns : Option (List String)) :
    Except String DistFig :=
  let cols := match columns with
    | some cs => cs
    | none => df.cols.map Prod.fst
  match pltSubplots cols.length with
  | .error e => .error e
  | .ok axes =>
    match renderSubplots df ((axesList axes).zip cols) with
    | .error e => .error e
    | .ok ss => .ok ⟨ss⟩

/-! ## Orchestrator (`run_quick_eda`) -/

/-- The fixed example configuration of `run_quick_eda`. -/
def fred_series : List (String × String) :=
  [("cpi", "CPIAUCSL"), ("unemployment_rate", "UNRATE"),
   ("fed_funds_rate", "FEDFUNDS"), ("sp500", "SP500")]

/-- The fixed output paths, in the order the run writes them. -/
def outputPaths : List String :=
  ["data/processed/summary.csv", "figures/time_series.png",
   "figures/correlation.png", "figures/distributions.png"]

/-- The world a run executes in: the external data provider and the outcome
of each of the four filesystem writes (`to_csv` and the three `savefig`
calls), each of which can raise (missing directory, full disk, ...). -/
structure Env where
  dataReader : String → Except String (List (Date × ℚ))
  csvOk : Bool
  saveTimeSeriesOk : Bool
  saveCorrOk : Bool
  saveDistOk : Bool

/-- `run_quick_eda`: fetch the fixed series, summarize, write the summary
CSV, then render and save the three charts, in that order.  The result is
the list of files written, in order, paired with the error that aborted the
run, if any; an error in any step stops the run there (no retries, no
handler). -/
noncomputable def run_quick_eda (env : Env) : List String × Option String :=
  match fetch_fred_series env.dataReader fred_series with
  | .error e => ([], some e)
  | .ok df =>
    let summary := summarize_timeseries df
    if env.csvOk = false then ([], some "to_csv failed: data/processed/summary.csv")
    else
      let fig1 := plot_time_series df "Macro & Market Time Series"
      if env.saveTimeSeriesOk = false then
        (["data/processed/summary.csv"], some "savefig failed: figures/time_series.png")
      else
        let fig2 := plot_correlation_heatmap df "Correlation (monthly freq)"
        if env.saveCorrOk = false then
          (["data/processed/summary.csv", "figures/time_series.png"],
           some "savefig failed: figures/correlation.png")
        else
          match plot_distribution df (some ["cpi", "unemployment_rate", "fed_funds_rate"]) with
          | .error e =>
            (["data/processed/summary.csv", "figures/time_series.png",
              "figures/correlation.png"], some e)
          | .ok fig3 =>
            if env.saveDistOk = false then
              (["data/processed/summary.csv", "figures/time_series.png",
                "figures/correlation.png"], some "savefig failed: figures/distributions.png")
            else (outputPaths, none)

/-! ## Object-level model of mutation

The Python pipeline manipulates heap objects through references; whether a
function mutates its input frame in place is a property of that heap.  A
`Heap` is a store of pandas objects addressed by allocation index; each
pipeline function is restated as a store transformer performing exactly the
allocations and in-place updates the source performs, returning the
reference of its result. -/

/-- A rendered figure. -/
inductive Fig where
  | ts (f : TSFig)
  | corr (f : CorrFig)
  | dist (f : DistFig)

/-- A pandas object living on the heap. -/
inductive PyObj where
  | frame (df : DataFrame)
  | sframe (s : SummaryFrame)
  | corrframe (m : List (String × List (Option ℝ)))
  | fig (f : Fig)

/-- The store: objects addressed by allocation index. -/
abbrev Heap := List PyObj

/-- In-place update of the summary frame stored at `r`
(`summary[...] = ...`). -/
def mutateSFrame (h : Heap) (r : Nat) (f : SummaryFrame → SummaryFrame) : Heap :=
  match h[r]? with
  | some (.sframe s) => h.set r (.sframe (f s))
  | _ => h

/-- `summarize_timeseries` as a store transformer: read the frame at `r`,
allocate the fresh `df.describe().T` object, then mutate that new object in
place three times, once per derived column assignment.  The input frame at
`r` is only read. -/
noncomputable def summarize_timeseries_impl (h : Heap) (r : Nat) : Option (Heap × Nat) :=
  match h[r]? with
  | some (.frame df) =>
    let s := h.length
    let h1 := h ++ [.sframe (describeT df)]
    let h2 := mutateSFrame h1 s (fun t => t.setColumn "missing_pct"
      (df.cols.map (fun c => Cell.num (missingPct c.2))))
    let h3 := mutateSFrame h2 s (fun t => t.setColumn "start_date"
      (df.cols.map (fun c => Cell.date (firstValidIndex df.index c.2))))
    let h4 := mutateSFrame h3 s (fun t => t.setColumn "end_date"
      (df.cols.map (fun c => Cell.date (lastValidIndex df.index c.2))))
    some (h4, s)
  | _ => none

/-- `plot_time_series` as a store transformer: read the frame, allocate the
figure. -/
def plot_time_series_impl (h : Heap) (r : Nat) : Option (Heap × Nat) :=
  match h[r]? with
  | some (.frame df) =>
    some (h ++ [.fig (.ts (plot_time_series df "Macro & Market Time Series"))], h.length)
  | _ => none

/-- `plot_correlation_heatmap` as a store transformer: read the frame,
allocate the fresh `monthly` frame (`df.resample("M").mean()`), the fresh
correlation frame (`monthly.corr()`), and the figure. -/
noncomputable def plot_correlation_heatmap_impl (h : Heap) (r : Nat) : Option (Heap × Nat) :=
  match h[r]? with
  | some (.frame df) =>
    let h1 := h ++ [.frame (resampleMonthly df)]
    let h2 := h1 ++ [.corrframe (corrMatrix (resampleMonthly df))]
    some (h2 ++ [.fig (.corr (plot_correlation_heatmap df "Correlation (monthly freq)"))],
          h2.length)
  | _ => none

/-- `plot_distribution` as a store transformer: read the frame, render
(fresh `df[col].dropna()` objects feed the histograms), allocate the
figure; a missing column raises. -/
def plot_distribution_impl (h : Heap) (r : Nat) (columns : Option (List String)) :
    Option (Heap × Nat) :=
  match h[r]? with
  | some (.frame df) =>
    match plot_distribution df columns with
    | .ok f => some (h ++ [.fig (.dist f)], h.length)
    | .error _ => none
  | _ => none

/-! ## Shared lemmas -/

theorem lookupStr_isSome_iff {α : Type} (label : String) (cols : List (String × α)) :
    (lookupStr label cols).isSome ↔ label ∈ cols.map Prod.fst := by
  induction cols with
  | nil => simp [lookupStr]
  | cons p rest ih =>
    by_cases h : p.1 = label
    · simp [lookupStr, h]
    · simp only [lookupStr, if_neg h, List.map_cons, List.mem_cons, ih]
      exact (or_iff_right (fun e => h e.symm)).symm

theorem pltSubplots_of_ne_zero (n : Nat) (hn : n ≠ 0) :
    pltSubplots n = .ok (if n = 1 then AxesResult.one else AxesResult.many n) := by
  rw [pltSubplots, if_neg hn]
  by_cases h : n = 1
  · rw [if_pos h, if_pos h]
  · rw [if_neg h, if_neg h]

theorem axesList_pltSubplots (n : Nat) :
    axesList (if n = 1 then AxesResult.one else AxesResult.many n)
      = List.replicate n () := by
  by_cases h : n = 1
  · subst h; rfl
  · simp [h, axesList]

theorem replicate_unit_zip (cs : List String) :
    (List.replicate cs.length ()).zip cs = cs.map (fun c => ((), c)) := by
  induction cs with
  | nil => rfl
  | cons c rest ih => simpa [List.replicate] using ih

theorem renderSubplots_ok (df : DataFrame) (cs : List String)
    (h : ∀ c ∈ cs, (df.getCol c).isSome) :
    renderSubplots df (cs.map (fun c => ((), c))) =
      .ok (cs.map (fun c =>
        ⟨"Distribution of " ++ c, dropna ((df.getCol c).getD [])⟩)) := by
  induction cs with
  | nil => rfl
  | cons c rest ih =>
    obtain ⟨col, hcol⟩ := Option.isSome_iff_exists.mp (h c (by simp))
    simp only [List.map_cons, renderSubplots, hcol]
    rw [ih (fun c' hc => h c' (by simp [hc]))]
    simp [hcol]

/-! ## C9: the empty mapping is a genuine precondition of the fetcher -/

/-- C9: for the empty mapping of labels to series identifiers,
`fetch_fred_series` raises (the concatenation of zero retrieved frames fails
with `ValueError: No objects to concatenate`) rather than returning an empty
table. -/
theorem fetch_empty_mapping_raises
    (dataReader : String → Except String (List (Date × ℚ))) :
    fetch_fred_series dataReader [] = .error "No objects to concatenate" := rfl

/-! ## C10: a single requested column renders as one subplot -/

/-- C10: for a selection of exactly one column present in the table,
subplot creation returns a single axes object, it is wrapped into a
one-element list, and `plot_distribution` succeeds with exactly one subplot
rendered from that column with its "no value" entries dropped. -/
theorem plot_distribution_single_column (df : DataFrame) (c : String)
    (col : List (Option ℚ)) (h : df.getCol c = some col) :
    pltSubplots [c].length = .ok AxesResult.one
    ∧ plot_distribution df (some [c]) =
        .ok ⟨[⟨"Distribution of " ++ c, dropna col⟩]⟩ := by
  refine ⟨rfl, ?_⟩
  simp [plot_distribution, pltSubplots, axesList, renderSubplots, h]

/-- Fixed example table used to instantiate the plotting theorems. -/
def dfDist : DataFrame :=
  ⟨[⟨2020, 1, 1⟩, ⟨2020, 1, 2⟩],
   [("a", [some 1, none]), ("b", [some 2, some 3])]⟩

theorem plot_distribution_single_column_witness :
    pltSubplots ["a"].length = .ok AxesResult.one
    ∧ plot_distribution dfDist (some ["a"]) =
        .ok ⟨[⟨"Distribution of " ++ "a", dropna [some 1, none]⟩]⟩ :=
  plot_distribution_single_column dfDist "a" [some 1, none] (by decide)

/-! ## C6: one subplot per requested column, in requested order -/

theorem plot_distribution_eq_ok (df : DataFrame) (cs : List String) (hne : cs ≠ [])
    (h : ∀ c ∈ cs, (df.getCol c).isSome) :
    plot_distribution df (some cs) =
      .ok ⟨cs.map (fun c =>
        ⟨"Distribution of " ++ c, dropna ((df.getCol c).getD [])⟩)⟩ := by
  have hn : cs.length ≠ 0 := by simpa using hne
  simp only [plot_distribution, pltSubplots_of_ne_zero cs.length hn, axesList_pltSubplots,
    replicate_unit_zip, renderSubplots_ok df cs h]

-- C6 counterexample: the empty subset is an explicit subset of column
-- labels, yet subplot creation raises matplotlib's ValueError there, so the
-- zero-subplot figure the original claim asks for is never produced.
theorem plot_distribution_empty_selection_raises :
    plot_distribution dfDist (some []) =
      .error "ValueError: Number of rows must be a positive integer"
    ∧ ∀ fig : DistFig, plot_distribution dfDist (some []) ≠ .ok fig := by
  refine ⟨rfl, ?_⟩
  intro fig h
  rw [show plot_distribution dfDist (some []) =
    .error "ValueError: Number of rows must be a positive integer" from rfl] at h
  exact Except.noConfusion h

/-- C6 (amended): for every non-empty explicit subset of present column
labels, `plot_distribution` produces exactly one subplot per requested
column, in the requested order, each rendered from that column with its
"no value" entries dropped; with no subset given it behaves as if all
columns of the table had been requested.  (For the empty subset, subplot
creation raises matplotlib's `ValueError` instead of producing a figure.) -/
theorem plot_distribution_per_column (df : DataFrame) (cs : List String)
    (hne : cs ≠ []) (h : ∀ c ∈ cs, (df.getCol c).isSome) :
    plot_distribution df (some cs) =
      .ok ⟨cs.map (fun c =>
        ⟨"Distribution of " ++ c, dropna ((df.getCol c).getD [])⟩)⟩
    ∧ plot_distribution df none = plot_distribution df (some (df.cols.map Prod.fst)) :=
  ⟨plot_distribution_eq_ok df cs hne h, rfl⟩

theorem plot_distribution_per_column_witness :
    plot_distribution dfDist (some ["b", "a"]) =
      .ok ⟨["b", "a"].map (fun c =>
        ⟨"Distribution of " ++ c, dropna ((dfDist.getCol c).getD [])⟩)⟩
    ∧ plot_distribution dfDist none =
        plot_distribution dfDist (some (dfDist.cols.map Prod.fst)) :=
  plot_distribution_per_column dfDist ["b", "a"] (by decide) (by decide)

/-! ## C2: missing-value percentage and first/last valid dates -/

theorem sum_indicator_countP (col : List (Option ℚ)) :
    (col.map (fun v => if v.isNone then (1 : ℚ) else 0)).sum
      = (col.countP (fun v => v.isNone) : ℚ) := by
  induction col with
  | nil => simp
  | cons v rest ih =>
    rw [List.map_cons, List.sum_cons, ih, List.countP_cons]
    cases v with
    | none => push_cast; simp [add_comm]
    | some x => simp

theorem lookupStr_findIdx {α : Type} (cols : List (String × α)) (label : String) (v : α)
    (h : lookupStr label cols = some v) :
    ∃ i, (cols.map Prod.fst).findIdx? (fun l => l == label) = some i
      ∧ cols[i]? = some (label, v) := by
  induction cols with
  | nil => simp [lookupStr] at h
  | cons p rest ih =>
    obtain ⟨pn, pv⟩ := p
    by_cases hp : pn = label
    · subst hp
      simp [lookupStr] at h
      exact ⟨0, by simp [List.findIdx?_cons], by simp [h]⟩
    · simp only [lookupStr, if_neg hp] at h
      obtain ⟨i, hfind, hget⟩ := ih h
      refine ⟨i + 1, ?_, by simpa using hget⟩
      simp [List.findIdx?_cons, hp, hfind]

theorem summarize_timeseries_eq (df : DataFrame) :
    summarize_timeseries df =
      ⟨df.cols.map Prod.fst,
       [("count", df.cols.map (fun c => Cell.num (some ((dropna c.2).length : ℚ)))),
        ("mean", df.cols.map (fun c => Cell.num (qmean (dropna c.2)))),
        ("std", df.cols.map (fun c => Cell.real (stdev (dropna c.2)))),
        ("min", df.cols.map (fun c => Cell.num (qmin (dropna c.2)))),
        ("25%", df.cols.map (fun c => Cell.num (quantile (dropna c.2) (1/4)))),
        ("50%", df.cols.map (fun c => Cell.num (quantile (dropna c.2) (1/2)))),
        ("75%", df.cols.map (fun c => Cell.num (quantile (dropna c.2) (3/4)))),
        ("max", df.cols.map (fun c => Cell.num (qmax (dropna c.2)))),
        ("missing_pct", df.cols.map (fun c => Cell.num (missingPct c.2))),
        ("start_date", df.cols.map (fun c => Cell.date (firstValidIndex df.index c.2))),
        ("end_date", df.cols.map (fun c => Cell.date (lastValidIndex df.index c.2)))]⟩ := by
  simp [summarize_timeseries, describeT, SummaryFrame.setColumn]

theorem summaryCell_missing_pct (df : DataFrame) (label : String)
    (col : List (Option ℚ)) (h : df.getCol label = some col) :
    (summaryCell (summarize_timeseries df) "missing_pct" label).map cellNum
      = some (missingPct col) := by
  obtain ⟨i, hfind, hget⟩ := lookupStr_findIdx df.cols label col h
  rw [summarize_timeseries_eq]
  simp [summaryCell, lookupStr, hfind, List.getElem?_map, hget, cellNum]

theorem summaryCell_start_date (df : DataFrame) (label : String)
    (col : List (Option ℚ)) (h : df.getCol label = some col) :
    (summaryCell (summarize_timeseries df) "start_date" label).map cellDate
      = some (firstValidIndex df.index col) := by
  obtain ⟨i, hfind, hget⟩ := lookupStr_findIdx df.cols label col h
  rw [summarize_timeseries_eq]
  simp [summaryCell, lookupStr, hfind, List.getElem?_map, hget, cellDate]

theorem summaryCell_end_date (df : DataFrame) (label : String)
    (col : List (Option ℚ)) (h : df.getCol label = some col) :
    (summaryCell (summarize_timeseries df) "end_date" label).map cellDate
      = some (lastValidIndex df.index col) := by
  obtain ⟨i, hfind, hget⟩ := lookupStr_findIdx df.cols label col h
  rw [summarize_timeseries_eq]
  simp [summaryCell, lookupStr, hfind, List.getElem?_map, hget, cellDate]

theorem firstValidIndex_all_none (index : List Date) (col : List (Option ℚ))
    (h : col.all (fun v => v.isNone)) : firstValidIndex index col = none := by
  have : (index.zip col).find? (fun p => p.2.isSome) = none := by
    rw [List.find?_eq_none]
    intro p hp
    have h2 := (List.of_mem_zip hp).2
    have := List.all_eq_true.mp h p.2 h2
    simp_all
  simp [firstValidIndex, this]

theorem lastValidIndex_all_none (index : List Date) (col : List (Option ℚ))
    (h : col.all (fun v => v.isNone)) : lastValidIndex index col = none := by
  have : (index.zip col).reverse.find? (fun p => p.2.isSome) = none := by
    rw [List.find?_eq_none]
    intro p hp
    rw [List.mem_reverse] at hp
    have h2 := (List.of_mem_zip hp).2
    have := List.all_eq_true.mp h p.2 h2
    simp_all
  simp [lastValidIndex, this]

/-- C2 (amended): for every input table and every column of it, the reported
missing-value percentage equals (count of "no value" entries / total rows) ×
100 — in particular exactly 0 for a column with no missing entries, and
exactly 100/3 (which two-decimal display rounds to 33.33) for a column with
1 missing entry out of 3 rows — and for a column composed entirely of the
no-value marker, the reported first and last valid dates are both absent. -/
theorem summarize_missing_and_valid_dates (df : DataFrame) (label : String)
    (col : List (Option ℚ)) (h : df.getCol label = some col) :
    (col ≠ [] →
      (summaryCell (summarize_timeseries df) "missing_pct" label).map cellNum
        = some (some ((col.countP (fun v => v.isNone) : ℚ) / col.length * 100)))
    ∧ (col ≠ [] → col.countP (fun v => v.isNone) = 0 →
      (summaryCell (summarize_timeseries df) "missing_pct" label).map cellNum
        = some (some 0))
    ∧ (col.length = 3 → col.countP (fun v => v.isNone) = 1 →
      (summaryCell (summarize_timeseries df) "missing_pct" label).map cellNum
        = some (some (100 / 3)))
    ∧ (col.all (fun v => v.isNone) →
      (summaryCell (summarize_timeseries df) "start_date" label).map cellDate
          = some none
      ∧ (summaryCell (summarize_timeseries df) "end_date" label).map cellDate
          = some none) := by
  have hpct : ∀ hne : col ≠ [],
      (summaryCell (summarize_timeseries df) "missing_pct" label).map cellNum
        = some (some ((col.countP (fun v => v.isNone) : ℚ) / col.length * 100)) := by
    intro hne
    rw [summaryCell_missing_pct df label col h]
    simp only [missingPct]
    rw [if_neg (by simp [hne]), sum_indicator_countP]
  refine ⟨hpct, ?_, ?_, ?_⟩
  · intro hne hzero
    rw [hpct hne, hzero]
    norm_num
  · intro hlen hone
    have hne : col ≠ [] := by
      intro e
      rw [e] at hlen
      simp at hlen
    rw [hpct hne, hlen, hone]
    norm_num
  · intro hall
    rw [summaryCell_start_date df label col h, summaryCell_end_date df label col h,
      firstValidIndex_all_none df.index col hall, lastValidIndex_all_none df.index col hall]
    exact ⟨rfl, rfl⟩

/-- The end-to-end example table of the spec: columns `a` = [1, 2, 3] and
`b` = [10, missing, 30] over three days. -/
def dfC2 : DataFrame :=
  ⟨[⟨2020, 1, 1⟩, ⟨2020, 1, 2⟩, ⟨2020, 1, 3⟩],
   [("a", [some 1, some 2, some 3]), ("b", [some 10, none, some 30])]⟩

/-- C2 counterexample: for column `b` with 1 missing entry out of 3 rows, the
summarizer reports 100/3 = 33.333…, which is not exactly 33.33. -/
theorem summarize_missing_pct_not_exactly_33_33 :
    (summaryCell (summarize_timeseries dfC2) "missing_pct" "b").map cellNum
      = some (some (100 / 3))
    ∧ ((100 : ℚ) / 3) ≠ 3333 / 100 := by
  constructor
  · rw [summaryCell_missing_pct dfC2 "b" [some 10, none, some 30] (by decide)]
    simp [missingPct]
    norm_num
  · norm_num

theorem summarize_missing_and_valid_dates_witness :
    (summaryCell (summarize_timeseries dfC2) "missing_pct" "b").map cellNum
      = some (some (100 / 3)) :=
  (summarize_missing_and_valid_dates dfC2 "b" [some 10, none, some 30]
      (by decide)).2.2.1 (by decide) (by decide)

/-! ## C4: two observations in one month average to their mean -/

theorem foldl_min_le_init (l : List Nat) : ∀ a : Nat, l.foldl min a ≤ a := by
  induction l with
  | nil => intro a; simp
  | cons b rest ih => intro a; exact le_trans (ih (min a b)) (min_le_left a b)

theorem foldl_min_le_of_mem (l : List Nat) : ∀ a x : Nat, x ∈ l → l.foldl min a ≤ x := by
  induction l with
  | nil => intro a x hx; cases hx
  | cons b rest ih =>
    intro a x hx
    rcases List.mem_cons.mp hx with h | h
    · subst h
      exact le_trans (foldl_min_le_init rest (min a x)) (min_le_right a x)
    · exact ih (min a b) x h

theorem le_foldl_max_init (l : List Nat) : ∀ a : Nat, a ≤ l.foldl max a := by
  induction l with
  | nil => intro a; simp
  | cons b rest ih => intro a; exact le_trans (le_max_left a b) (ih (max a b))

theorem le_foldl_max_of_mem (l : List Nat) : ∀ a x : Nat, x ∈ l → x ≤ l.foldl max a := by
  induction l with
  | nil => intro a x hx; cases hx
  | cons b rest ih =>
    intro a x hx
    rcases List.mem_cons.mp hx with h | h
    · subst h
      exact le_trans (le_max_right a x) (le_foldl_max_init rest (max a x))
    · exact ih (max a b) x h

theorem monthIdx_monthEnd (k : Nat) : (monthEnd k).monthIdx = k := by
  simp only [monthEnd, Date.monthIdx]
  omega

theorem lookupStr_map_val {α β : Type} (label : String) (g : α → β)
    (cols : List (String × α)) :
    lookupStr label (cols.map (fun c => (c.1, g c.2))) = (lookupStr label cols).map g := by
  induction cols with
  | nil => rfl
  | cons p rest ih =>
    by_cases h : p.1 = label
    · simp [lookupStr, h]
    · simp [lookupStr, h, ih]

theorem monthVals_ne_nil_mem (index : List Date) (col : List (Option ℚ)) (k : Nat)
    (h : monthVals index col k ≠ []) : k ∈ index.map Date.monthIdx := by
  rw [monthVals, Ne, List.filterMap_eq_nil_iff] at h
  push_neg at h
  obtain ⟨p, hp, hsome⟩ := h
  by_cases hk : p.1.monthIdx = k
  · exact List.mem_map.mpr ⟨p.1, (List.of_mem_zip hp).1, hk⟩
  · rw [if_neg hk] at hsome
    simp at hsome

theorem resampleMonthly_eq (df : DataFrame) (k0 : Nat) (ks : List Nat)
    (hmap : df.index.map Date.monthIdx = k0 :: ks) :
    resampleMonthly df =
      ⟨((List.range (ks.foldl max k0 + 1 - ks.foldl min k0)).map
          (· + ks.foldl min k0)).map monthEnd,
       df.cols.map (fun c =>
        (c.1, ((List.range (ks.foldl max k0 + 1 - ks.foldl min k0)).map
            (· + ks.foldl min k0)).map (fun k => colMonthVal df.index c.2 k)))⟩ := by
  rw [resampleMonthly, hmap]

/-- C4: for every table and present column with exactly two observations
falling in calendar month `k`, the monthly-resampled table has exactly one
row for that month, and the column's value there is the arithmetic mean of
the two observations. -/
theorem resample_two_obs_in_month_mean (df : DataFrame) (label : String)
    (col : List (Option ℚ)) (k : Nat) (a b : ℚ)
    (hcol : df.getCol label = some col)
    (hvals : monthVals df.index col k = [a, b]) :
    ∃ i : Nat, ((resampleMonthly df).index[i]?).map Date.monthIdx = some k
      ∧ (∀ j : Nat, ((resampleMonthly df).index[j]?).map Date.monthIdx = some k → j = i)
      ∧ ∃ rcol : List (Option ℚ), (resampleMonthly df).getCol label = some rcol
          ∧ rcol[i]? = some (some ((a + b) / 2)) := by
  have hkmem : k ∈ df.index.map Date.monthIdx :=
    monthVals_ne_nil_mem df.index col k (by rw [hvals]; simp)
  rcases hm : df.index.map Date.monthIdx with _ | ⟨k0, ks⟩
  · rw [hm] at hkmem; cases hkmem
  rw [hm] at hkmem
  set lo := ks.foldl min k0 with hlo
  set hi := ks.foldl max k0 with hhi
  have hlok : lo ≤ k := by
    rcases List.mem_cons.mp hkmem with h | h
    · subst h; exact foldl_min_le_init ks k
    · exact foldl_min_le_of_mem ks k0 k h
  have hkhi : k ≤ hi := by
    rcases List.mem_cons.mp hkmem with h | h
    · subst h; exact le_foldl_max_init ks k
    · exact le_foldl_max_of_mem ks k0 k h
  have hrs := resampleMonthly_eq df k0 ks hm
  set months : List Nat := (List.range (hi + 1 - lo)).map (· + lo) with hmonths
  have hmonths_get : ∀ j, months[j]? = if j < hi + 1 - lo then some (j + lo) else none := by
    intro j
    by_cases hj : j < hi + 1 - lo
    · rw [hmonths, List.getElem?_map, List.getElem?_range hj]
      simp [hj]
    · rw [hmonths, List.getElem?_map]
      rw [List.getElem?_eq_none (by simpa using Nat.le_of_not_lt hj)]
      simp [hj]
  refine ⟨k - lo, ?_, ?_, ?_⟩
  · rw [hrs]
    simp only [List.getElem?_map, hmonths_get (k - lo)]
    rw [if_pos (by omega)]
    simp [Nat.sub_add_cancel hlok, monthIdx_monthEnd]
  · intro j hj
    rw [hrs] at hj
    simp only [List.getElem?_map, hmonths_get j] at hj
    by_cases hjlt : j < hi + 1 - lo
    · rw [if_pos hjlt] at hj
      simp only [Option.map_some', Option.some.injEq, monthIdx_monthEnd] at hj
      omega
    · rw [if_neg hjlt] at hj
      simp at hj
  · refine ⟨months.map (fun k => colMonthVal df.index col k), ?_, ?_⟩
    · rw [hrs]
      show lookupStr label _ = _
      rw [lookupStr_map_val label (fun cv => months.map (fun k => colMonthVal df.index cv k)) df.cols]
      rw [show lookupStr label df.cols = some col from hcol]
      rfl
    · rw [List.getElem?_map, hmonths_get (k - lo), if_pos (by omega),
        Nat.sub_add_cancel hlok]
      simp only [Option.map_some', Option.some.injEq]
      rw [colMonthVal, hvals]
      norm_num

/-- Two January 2020 observations of one column (month number
12 × 2020 = 24240). -/
def dfC4 : DataFrame := ⟨[⟨2020, 1, 10⟩, ⟨2020, 1, 20⟩], [("a", [some 1, some 3])]⟩

theorem resample_two_obs_in_month_mean_witness :
    ∃ i : Nat, ((resampleMonthly dfC4).index[i]?).map Date.monthIdx = some 24240
      ∧ (∀ j : Nat, ((resampleMonthly dfC4).index[j]?).map Date.monthIdx = some 24240 → j = i)
      ∧ ∃ rcol : List (Option ℚ), (resampleMonthly dfC4).getCol "a" = some rcol
          ∧ rcol[i]? = some (some ((1 + 3) / 2)) :=
  resample_two_obs_in_month_mean dfC4 "a" [some 1, some 3] 24240 1 3 (by decide) (by decide)

/-! ## C1: shape of the fetched table -/

theorem findVal_eq_none (d : Date) (obs : List (Date × ℚ))
    (h : d ∉ obs.map Prod.fst) : findVal d obs = none := by
  induction obs with
  | nil => rfl
  | cons o rest ih =>
    simp only [List.map_cons, List.mem_cons] at h
    push_neg at h
    rw [findVal, if_neg (fun e => h.1 e.symm)]
    exact ih h.2

theorem mem_sortedUnion (ls : List (List Date)) (d : Date) :
    d ∈ sortedUnion ls ↔ ∃ l ∈ ls, d ∈ l := by
  rw [sortedUnion, List.mem_mergeSort, List.mem_dedup]
  exact List.mem_join

theorem fetchFrames_ok (dataReader : String → Except String (List (Date × ℚ)))
    (f : String → List (Date × ℚ)) (series : List (String × String))
    (hok : ∀ p ∈ series, dataReader p.2 = .ok (f p.2)) :
    fetchFrames dataReader series = .ok (series.map (fun p => (p.1, f p.2))) := by
  induction series with
  | nil => rfl
  | cons p rest ih =>
    have hp := hok p (by simp)
    have hrest := ih (fun q hq => hok q (by simp [hq]))
    rw [fetchFrames, hp, hrest]
    rfl

theorem fetch_fred_series_ok (dataReader : String → Except String (List (Date × ℚ)))
    (f : String → List (Date × ℚ)) (series : List (String × String))
    (hok : ∀ p ∈ series, dataReader p.2 = .ok (f p.2)) :
    fetch_fred_series dataReader series
      = concatOuter (series.map (fun p => (p.1, f p.2))) := by
  rw [fetch_fred_series, fetchFrames_ok dataReader f series hok]
  rfl

/-- C1: for every non-empty mapping and data reader that retrieves each
requested identifier, the fetched table has exactly one column per input
label, columns in input-mapping order, and a date index that is (as a set)
the union of the retrieved series' dates; a date absent from a given series
holds the "no value" marker in that series' column. -/
theorem fetch_fred_series_table_shape
    (dataReader : String → Except String (List (Date × ℚ)))
    (f : String → List (Date × ℚ)) (series : List (String × String))
    (hne : series ≠ [])
    (hok : ∀ p ∈ series, dataReader p.2 = .ok (f p.2)) :
    ∃ df : DataFrame, fetch_fred_series dataReader series = .ok df
      ∧ df.cols.map Prod.fst = series.map Prod.fst
      ∧ (∀ d : Date, d ∈ df.index ↔ ∃ p ∈ series, d ∈ (f p.2).map Prod.fst)
      ∧ (∀ (i : Nat) (p : String × String), series[i]? = some p →
          ∃ cv : List (Option ℚ), df.cols[i]? = some (p.1, cv)
            ∧ ∀ (j : Nat) (d : Date), df.index[j]? = some d →
                d ∉ (f p.2).map Prod.fst → cv[j]? = some none) := by
  have hF : (series.map (fun p => (p.1, f p.2))).isEmpty = false := by
    cases series with
    | nil => exact absurd rfl hne
    | cons p rest => rfl
  refine ⟨⟨sortedUnion ((series.map (fun p => (p.1, f p.2))).map
      (fun fr => fr.2.map Prod.fst)),
    (series.map (fun p => (p.1, f p.2))).map (fun fr =>
      (fr.1, (sortedUnion ((series.map (fun p => (p.1, f p.2))).map
        (fun fr => fr.2.map Prod.fst))).map (fun d => findVal d fr.2)))⟩,
    ?_, ?_, ?_, ?_⟩
  · rw [fetch_fred_series_ok dataReader f series hok, concatOuter, hF]
    rfl
  · simp
  · intro d
    rw [show (⟨sortedUnion _, _⟩ : DataFrame).index = sortedUnion ((series.map
      (fun p => (p.1, f p.2))).map (fun fr => fr.2.map Prod.fst)) from rfl,
      mem_sortedUnion]
    constructor
    · rintro ⟨l, hl, hdl⟩
      rw [List.mem_map] at hl
      obtain ⟨fr, hfr, rfl⟩ := hl
      rw [List.mem_map] at hfr
      obtain ⟨p, hp, rfl⟩ := hfr
      exact ⟨p, hp, hdl⟩
    · rintro ⟨p, hp, hd⟩
      exact ⟨(f p.2).map Prod.fst,
        List.mem_map.mpr ⟨(p.1, f p.2), List.mem_map.mpr ⟨p, hp, rfl⟩, rfl⟩, hd⟩
  · intro i p hip
    refine ⟨(sortedUnion ((series.map (fun p => (p.1, f p.2))).map
        (fun fr => fr.2.map Prod.fst))).map (fun d => findVal d (f p.2)), ?_, ?_⟩
    · show (List.map _ (series.map (fun p => (p.1, f p.2))))[i]? = _
      rw [List.getElem?_map, List.getElem?_map, hip]
      rfl
    · intro j d hjd hd
      show ((sortedUnion _).map (fun d => findVal d (f p.2)))[j]? = some none
      rw [List.getElem?_map]
      rw [show ((⟨sortedUnion _, _⟩ : DataFrame).index)[j]? = some d from hjd] at *
      rw [hjd]
      simp [findVal_eq_none d (f p.2) hd]

/-- Example data provider: series `ID1` observes three days, `ID2` skips the
middle one. -/
def fW : String → List (Date × ℚ) :=
  fun fid => if fid = "ID1"
    then [(⟨2020, 1, 1⟩, 1), (⟨2020, 1, 2⟩, 2), (⟨2020, 1, 3⟩, 3)]
    else [(⟨2020, 1, 1⟩, 10), (⟨2020, 1, 3⟩, 30)]

/-- A data reader that always succeeds with `fW`'s data. -/
def rdrW : String → Except String (List (Date × ℚ)) := fun fid => .ok (fW fid)

theorem fetch_fred_series_table_shape_witness :
    ∃ df : DataFrame, fetch_fred_series rdrW [("a", "ID1"), ("b", "ID2")] = .ok df
      ∧ df.cols.map Prod.fst = [("a", "ID1"), ("b", "ID2")].map Prod.fst
      ∧ (∀ d : Date, d ∈ df.index ↔
          ∃ p ∈ [("a", "ID1"), ("b", "ID2")], d ∈ (fW p.2).map Prod.fst)
      ∧ (∀ (i : Nat) (p : String × String),
          [("a", "ID1"), ("b", "ID2")][i]? = some p →
          ∃ cv : List (Option ℚ), df.cols[i]? = some (p.1, cv)
            ∧ ∀ (j : Nat) (d : Date), df.index[j]? = some d →
                d ∉ (fW p.2).map Prod.fst → cv[j]? = some none) :=
  fetch_fred_series_table_shape rdrW fW [("a", "ID1"), ("b", "ID2")]
    (by decide) (by decide)

/-! ## C3: correlation matrix symmetry and unit diagonal -/

theorem pairObs_swap (xs : List (Option ℚ)) :
    ∀ ys : List (Option ℚ), pairObs ys xs = (pairObs xs ys).map Prod.swap := by
  induction xs with
  | nil => intro ys; cases ys <;> rfl
  | cons x xs ih =>
    intro ys
    cases ys with
    | nil => rfl
    | cons y ys =>
      cases x <;> cases y <;> simp [pairObs, List.filterMap_cons] <;>
        simpa [pairObs] using ih ys

theorem devSumXX_swap (ps : List (ℚ × ℚ)) :
    devSumXX (ps.map Prod.swap) = devSumYY ps := by
  simp [devSumXX, devSumYY, List.map_map, Function.comp_def]

theorem devSumYY_swap (ps : List (ℚ × ℚ)) :
    devSumYY (ps.map Prod.swap) = devSumXX ps := by
  simp [devSumXX, devSumYY, List.map_map, Function.comp_def]

theorem devSumXY_swap (ps : List (ℚ × ℚ)) :
    devSumXY (ps.map Prod.swap) = devSumXY ps := by
  simp only [devSumXY, List.map_map, Function.comp_def, Prod.fst_swap, Prod.snd_swap,
    List.length_map]
  congr 1
  apply List.map_congr_left
  intro p _
  ring

theorem corrEntry_symm (xs ys : List (Option ℚ)) : corrEntry xs ys = corrEntry ys xs := by
  rw [corrEntry, corrEntry, pairObs_swap xs ys, devSumXX_swap, devSumYY_swap, devSumXY_swap]
  by_cases h : devSumXX (pairObs xs ys) = 0 ∨ devSumYY (pairObs xs ys) = 0
  · rw [if_pos h, if_pos (Or.symm h)]
  · rw [if_neg h, if_neg (fun hc => h (Or.symm hc)), mul_comm]

theorem pairObs_self (xs : List (Option ℚ)) :
    pairObs xs xs = (dropna xs).map (fun a => (a, a)) := by
  induction xs with
  | nil => rfl
  | cons x xs ih =>
    cases x <;> simp [pairObs, dropna, List.filterMap_cons] <;>
      simpa [pairObs, dropna] using ih

theorem devSumYY_diag (l : List ℚ) :
    devSumYY (l.map (fun a => (a, a))) = devSumXX (l.map (fun a => (a, a))) := by
  simp [devSumXX, devSumYY, List.map_map, Function.comp_def]

theorem devSumXY_diag (l : List ℚ) :
    devSumXY (l.map (fun a => (a, a))) = devSumXX (l.map (fun a => (a, a))) := by
  simp only [devSumXY, devSumXX, List.map_map, Function.comp_def, List.length_map]
  congr 1
  apply List.map_congr_left
  intro a _
  ring

theorem devSumXX_nonneg (ps : List (ℚ × ℚ)) : 0 ≤ devSumXX ps := by
  apply List.sum_nonneg
  intro x hx
  simp only [List.mem_map] at hx
  obtain ⟨p, _, rfl⟩ := hx
  positivity

theorem corrEntry_self (xs : List (Option ℚ)) (h : devSumXX (pairObs xs xs) ≠ 0) :
    corrEntry xs xs = some 1 := by
  have hYY : devSumYY (pairObs xs xs) = devSumXX (pairObs xs xs) := by
    rw [pairObs_self]
    exact devSumYY_diag _
  have hXY : devSumXY (pairObs xs xs) = devSumXX (pairObs xs xs) := by
    rw [pairObs_self]
    exact devSumXY_diag _
  have hpos : (0 : ℝ) < ((devSumXX (pairObs xs xs) : ℚ) : ℝ) := by
    have h0 : (0 : ℚ) ≤ devSumXX (pairObs xs xs) := devSumXX_nonneg _
    exact_mod_cast lt_of_le_of_ne h0 (Ne.symm h)
  rw [corrEntry, if_neg (by rw [hYY]; exact fun hc => h (hc.elim id id)), hXY, hYY,
    Real.mul_self_sqrt hpos.le, div_self hpos.ne']

theorem corrAt_corrMatrix (df : DataFrame) (i j : Nat) :
    corrAt (corrMatrix df) i j =
      match df.cols[i]?, df.cols[j]? with
      | some ci, some cj => some (corrEntry ci.2 cj.2)
      | _, _ => none := by
  rw [corrAt, corrMatrix, List.getElem?_map]
  rcases hi : df.cols[i]? with _ | ci
  · rfl
  · simp only [Option.map_some']
    rw [List.getElem?_map]
    rcases hj : df.cols[j]? with _ | cj <;> rfl

/-- C3: the correlation matrix rendered by `plot_correlation_heatmap` — the
pairwise Pearson correlation of the monthly-resampled table — is symmetric,
and for a non-degenerate input (every column of the resampled table has
nonzero squared deviation over its present values) every diagonal entry
equals 1. -/
theorem corr_heatmap_symm_unit_diag (df : DataFrame) (title : String) :
    (∀ i j : Nat, corrAt ((plot_correlation_heatmap df title).corr) i j
        = corrAt ((plot_correlation_heatmap df title).corr) j i)
    ∧ ((∀ cp ∈ (resampleMonthly df).cols, devSumXX (pairObs cp.2 cp.2) ≠ 0) →
        ∀ i : Nat, i < (resampleMonthly df).cols.length →
          corrAt ((plot_correlation_heatmap df title).corr) i i = some (some 1)) := by
  have hcorr : (plot_correlation_heatmap df title).corr
      = corrMatrix (resampleMonthly df) := rfl
  constructor
  · intro i j
    rw [hcorr, corrAt_corrMatrix, corrAt_corrMatrix]
    rcases hi : (resampleMonthly df).cols[i]? with _ | ci <;>
      rcases hj : (resampleMonthly df).cols[j]? with _ | cj
    · rfl
    · rfl
    · rfl
    · exact congrArg some (corrEntry_symm ci.2 cj.2)
  · intro hnd i hi
    obtain ⟨cp, hcp⟩ : ∃ cp, (resampleMonthly df).cols[i]? = some cp :=
      ⟨_, List.getElem?_eq_getElem hi⟩
    have hmem : cp ∈ (resampleMonthly df).cols := by
      have := List.getElem?_eq_some.mp hcp
      obtain ⟨hlt, hval⟩ := this
      exact hval ▸ List.getElem_mem hlt
    rw [hcorr, corrAt_corrMatrix, hcp]
    exact congrArg some (corrEntry_self cp.2 (hnd cp hmem))

/-- Two columns over two months with distinct values: the resampled table is
non-degenerate. -/
def dfC3 : DataFrame :=
  ⟨[⟨2020, 1, 15⟩, ⟨2020, 2, 15⟩],
   [("a", [some 0, some 2]), ("b", [some 1, some 5])]⟩

unseal Rat.add Rat.mul Rat.inv Rat.sub in
theorem corr_heatmap_symm_unit_diag_witness :
    corrAt ((plot_correlation_heatmap dfC3 "Correlation (monthly freq)").corr) 0 0
      = some (some 1) :=
  (corr_heatmap_symm_unit_diag dfC3 "Correlation (monthly freq)").2
    (by decide) 0 (by decide)

/-! ## C5 and C7: the orchestrator -/

theorem fetchFrames_labels (dataReader : String → Except String (List (Date × ℚ))) :
    ∀ (series : List (String × String)) (F : List (String × List (Date × ℚ))),
    fetchFrames dataReader series = .ok F → F.map Prod.fst = series.map Prod.fst := by
  intro series
  induction series with
  | nil =>
    intro F h
    cases h
    rfl
  | cons p rest ih =>
    intro F h
    rw [fetchFrames] at h
    rcases hr : dataReader p.2 with e | ts
    · rw [hr] at h
      exact Except.noConfusion (show (Except.error e : Except String _) = .ok F from h)
    · rw [hr] at h
      rcases hrec : fetchFrames dataReader rest with e | F'
      · rw [hrec] at h
        exact Except.noConfusion (show (Except.error e : Except String _) = .ok F from h)
      · rw [hrec] at h
        cases show (Except.ok ((p.1, ts) :: F') : Except String _) = .ok F from h
        simp [ih F' hrec]

theorem fetch_ok_labels (dataReader : String → Except String (List (Date × ℚ)))
    (series : List (String × String)) (df : DataFrame)
    (h : fetch_fred_series dataReader series = .ok df) :
    df.cols.map Prod.fst = series.map Prod.fst := by
  rw [fetch_fred_series] at h
  rcases hf : fetchFrames dataReader series with e | frames
  · rw [hf] at h
    exact Except.noConfusion (show (Except.error e : Except String _) = .ok df from h)
  · rw [hf] at h
    have h' : concatOuter frames = .ok df := h
    rw [concatOuter] at h'
    by_cases he : frames.isEmpty
    · rw [if_pos he] at h'
      exact Except.noConfusion h'
    · rw [if_neg he] at h'
      cases show Except.ok (⟨sortedUnion (frames.map (fun fr => fr.2.map Prod.fst)),
        frames.map (fun fr => (fr.1, (sortedUnion (frames.map (fun fr =>
          fr.2.map Prod.fst))).map (fun d => findVal d fr.2)))⟩ : DataFrame)
          = .ok df from h'
      simpa using fetchFrames_labels dataReader series frames hf

/-- An environment where retrieval and the summary-CSV write succeed but
saving the first chart fails. -/
def envAbort : Env :=
  ⟨fun _ => .ok [(⟨2020, 1, 1⟩, 1)], true, false, true, true⟩

-- C5 counterexample: when saving the time-series chart fails, the run
-- aborts with an error, yet the summary CSV has already been written — a
-- partial output exists, refuting "no output file is written when any step
-- raises".
unseal List.mergeSort List.merge in
theorem run_partial_output_on_failure :
    (run_quick_eda envAbort).2.isSome = true
    ∧ (run_quick_eda envAbort).1 ≠ [] := by
  constructor
  · rfl
  · decide

/-- C5 (amended): if any step of `run_quick_eda` fails, the run aborts there
with no retries and produces no further outputs: the files written are
exactly those of the steps completed before the failure — a proper prefix of
the four fixed output paths — and when the fetch itself fails, no output
file is written at all. -/
theorem run_aborts_on_failure (env : Env) :
    ((run_quick_eda env).2.isSome = true →
      ∃ k : Nat, k < 4 ∧ (run_quick_eda env).1 = outputPaths.take k)
    ∧ (∀ e : String, fetch_fred_series env.dataReader fred_series = .error e →
        run_quick_eda env = ([], some e)) := by
  constructor
  · obtain ⟨rdr, csv, s1, s2, s3⟩ := env
    rcases hf : fetch_fred_series rdr fred_series with e | df
    · intro _
      exact ⟨0, by norm_num, by simp [run_quick_eda, hf]⟩
    · intro herr
      cases csv with
      | false => exact ⟨0, by norm_num, by simp [run_quick_eda, hf]⟩
      | true =>
        cases s1 with
        | false => exact ⟨1, by norm_num, by simp [run_quick_eda, hf, outputPaths]⟩
        | true =>
          cases s2 with
          | false => exact ⟨2, by norm_num, by simp [run_quick_eda, hf, outputPaths]⟩
          | true =>
            rcases hd : plot_distribution df
                (some ["cpi", "unemployment_rate", "fed_funds_rate"]) with e3 | f3
            · exact ⟨3, by norm_num, by simp [run_quick_eda, hf, hd, outputPaths]⟩
            · cases s3 with
              | false =>
                exact ⟨3, by norm_num, by simp [run_quick_eda, hf, hd, outputPaths]⟩
              | true =>
                exfalso
                simp [run_quick_eda, hf, hd] at herr
  · intro e he
    simp [run_quick_eda, he]

theorem run_aborts_on_failure_witness :
    ∃ k : Nat, k < 4 ∧ (run_quick_eda envAbort).1 = outputPaths.take k :=
  (run_aborts_on_failure envAbort).1 (by rfl)

/-- C7: `run_quick_eda` runs fetch, then summarize, then the three plots, in
that order, writing the summary table and the three charts to the four fixed
paths of `outputPaths` in that order; the paths and the series mapping are
constants of the program and the run takes no configuration beyond the
world it executes in. -/
theorem run_executes_in_order_fixed_paths (env : Env) (df : DataFrame)
    (hfetch : fetch_fred_series env.dataReader fred_series = .ok df)
    (hcsv : env.csvOk = true) (h1 : env.saveTimeSeriesOk = true)
    (h2 : env.saveCorrOk = true) (h3 : env.saveDistOk = true) :
    run_quick_eda env = (outputPaths, none) := by
  have hlab := fetch_ok_labels env.dataReader fred_series df hfetch
  have hcols : ∀ cn ∈ ["cpi", "unemployment_rate", "fed_funds_rate"],
      (df.getCol cn).isSome := by
    intro cn hcn
    rw [DataFrame.getCol, lookupStr_isSome_iff, hlab]
    fin_cases hcn <;> decide
  have hdist := plot_distribution_eq_ok df
    ["cpi", "unemployment_rate", "fed_funds_rate"] (by decide) hcols
  simp [run_quick_eda, hfetch, hcsv, h1, h2, h3, hdist, outputPaths]

/-- A world where every write succeeds and every series resolves to one
observation. -/
def envOk : Env := ⟨fun _ => .ok [(⟨2020, 1, 1⟩, 1)], true, true, true, true⟩

/-- The table `run_quick_eda` fetches in the world `envOk`. -/
def dfOk : DataFrame :=
  ⟨[⟨2020, 1, 1⟩],
   [("cpi", [some 1]), ("unemployment_rate", [some 1]),
    ("fed_funds_rate", [some 1]), ("sp500", [some 1])]⟩

set_option maxRecDepth 8000 in
unseal List.mergeSort List.merge in
theorem run_executes_in_order_fixed_paths_witness :
    run_quick_eda envOk = (outputPaths, none) :=
  run_executes_in_order_fixed_paths envOk dfOk (by decide) rfl rfl rfl rfl

/-! ## C8: the input frame is never mutated in place -/

theorem mutateSFrame_getElem_ne (h : Heap) (s : Nat) (f : SummaryFrame → SummaryFrame)
    (r : Nat) (hne : r ≠ s) : (mutateSFrame h s f)[r]? = h[r]? := by
  rw [mutateSFrame]
  rcases hs : h[s]? with _ | obj
  · rfl
  · cases obj with
    | sframe t => exact List.getElem?_set_ne (fun e => hne e.symm)
    | frame df => rfl
    | corrframe m => rfl
    | fig fg => rfl

/-- C8: each pipeline consumer leaves the table it was given unchanged on
the heap: `summarize_timeseries` allocates `df.describe().T` and mutates
only that fresh summary object, and the three plotting functions only read
the frame and allocate fresh objects (the monthly resample, the correlation
frame, the figures); every result lives at a reference distinct from the
input's. -/
theorem pipeline_preserves_input_frame (h : Heap) (r : Nat) (df : DataFrame)
    (hr : h[r]? = some (.frame df)) :
    (∃ p : Heap × Nat, summarize_timeseries_impl h r = some p
      ∧ p.1[r]? = some (.frame df) ∧ p.2 ≠ r)
    ∧ (∃ p : Heap × Nat, plot_time_series_impl h r = some p
      ∧ p.1[r]? = some (.frame df) ∧ p.2 ≠ r)
    ∧ (∃ p : Heap × Nat, plot_correlation_heatmap_impl h r = some p
      ∧ p.1[r]? = some (.frame df) ∧ p.2 ≠ r)
    ∧ (∀ (columns : Option (List String)) (p : Heap × Nat),
        plot_distribution_impl h r columns = some p →
        p.1[r]? = some (.frame df) ∧ p.2 ≠ r) := by
  have hlen : r < h.length := (List.getElem?_eq_some.mp hr).1
  have hne : r ≠ h.length := Nat.ne_of_lt hlen
  refine ⟨?_, ?_, ?_, ?_⟩
  · rw [summarize_timeseries_impl, hr]
    refine ⟨_, rfl, ?_, fun e => hne e.symm⟩
    rw [mutateSFrame_getElem_ne _ _ _ _ hne, mutateSFrame_getElem_ne _ _ _ _ hne,
      mutateSFrame_getElem_ne _ _ _ _ hne, List.getElem?_append_left hlen, hr]
  · rw [plot_time_series_impl, hr]
    refine ⟨_, rfl, ?_, fun e => hne e.symm⟩
    rw [List.getElem?_append_left hlen, hr]
  · rw [plot_correlation_heatmap_impl, hr]
    refine ⟨_, rfl, ?_, ?_⟩
    · have e1 : r < (h ++ [PyObj.frame (resampleMonthly df)]).length := by
        simp
        omega
      have e2 : r < ((h ++ [PyObj.frame (resampleMonthly df)]) ++
          [PyObj.corrframe (corrMatrix (resampleMonthly df))]).length := by
        simp
        omega
      rw [List.getElem?_append_left e2, List.getElem?_append_left e1,
        List.getElem?_append_left hlen, hr]
    · simp
      omega
  · intro columns p hp
    rw [plot_distribution_impl, hr] at hp
    rcases hd : plot_distribution df columns with e | f
    · simp only [hd] at hp
      exact Option.noConfusion hp
    · simp only [hd, Option.some.injEq] at hp
      rw [← hp]
      refine ⟨?_, fun e => hne e.symm⟩
      rw [List.getElem?_append_left hlen, hr]

theorem pipeline_preserves_input_frame_witness :
    (∃ p : Heap × Nat, summarize_timeseries_impl [PyObj.frame dfDist] 0 = some p
      ∧ p.1[0]? = some (.frame dfDist) ∧ p.2 ≠ 0)
    ∧ (∃ p : Heap × Nat, plot_time_series_impl [PyObj.frame dfDist] 0 = some p
      ∧ p.1[0]? = some (.frame dfDist) ∧ p.2 ≠ 0)
    ∧ (∃ p : Heap × Nat, plot_correlation_heatmap_impl [PyObj.frame dfDist] 0 = some p
      ∧ p.1[0]? = some (.frame dfDist) ∧ p.2 ≠ 0)
    ∧ (∀ (columns : Option (List String)) (p : Heap × Nat),
        plot_distribution_impl [PyObj.frame dfDist] 0 columns = some p →
        p.1[0]? = some (.frame dfDist) ∧ p.2 ≠ 0) :=
  pipeline_preserves_input_frame [PyObj.frame dfDist] 0 dfDist rfl
